import Mathlib

/-!
CPU frequency hard limit (drivers/cpufreq/cpufreq_hardlimit.c)

A shallow embedding of the limit policy of `cpufreq_hardlimit.c`: the nine
module globals, the clamp `check_cpufreq_hardlimit`, the power-suspend
handlers, the delayed work `stop_wakeup_kick` and the six sysfs store
handlers.  Unsigned 32-bit values are natural numbers; the code only compares
and copies them, except for the product `wakeup_kick_delay * 1000`, which is
reduced modulo `2 ^ 32`.
-/

namespace Hardlimit

/-- Constants of `linux/cpufreq_hardlimit.h` and `linux/cpufreq.h`.  The two
headers are not part of the sources at hand, so the values are parameters of
the development. -/
structure Consts where
  CPUFREQ_HARDLIMIT_MAX_SCREEN_ON_STOCK : Nat
  CPUFREQ_HARDLIMIT_MAX_SCREEN_OFF_STOCK : Nat
  CPUFREQ_HARDLIMIT_MIN_STOCK : Nat
  CPUFREQ_HARDLIMIT_WAKEUP_KICK_DISABLED : Nat
  CPUFREQ_HARDLIMIT_WAKEUP_KICK_DELAY_MAX : Nat
  CPUFREQ_HARDLIMIT_WAKEUP_KICK_INACTIVE : Nat
  CPUFREQ_HARDLIMIT_WAKEUP_KICK_ACTIVE : Nat
  CPUFREQ_HARDLIMIT_TOUCHBOOST_LO_STOCK : Nat
  CPUFREQ_HARDLIMIT_TOUCHBOOST_HI_STOCK : Nat
  CPUFREQ_TABLE_END : Nat
  deriving DecidableEq, Repr

/-- The nine `unsigned int` globals of the module (lines 69-77). -/
structure Store where
  hardlimit_max_screen_on : Nat
  hardlimit_max_screen_off : Nat
  wakeup_kick_freq : Nat
  wakeup_kick_delay : Nat
  wakeup_kick_active : Nat
  touchboost_lo_freq : Nat
  touchboost_hi_freq : Nat
  current_limit_max : Nat
  current_limit_min : Nat
  deriving DecidableEq, Repr

/-- The module state together with what it hands to its collaborators:
`scaling_calls` logs the argument pairs `(min, max)` of every call of
`update_scaling_limits`, most recent first; `scheduled_usecs` logs the
argument `wakeup_kick_delay * 1000` of every `schedule_delayed_work` call,
most recent first; `work_pending` tells whether `stop_wakeup_kick_work` is
queued. -/
structure Machine where
  store : Store
  scaling_calls : List (Nat × Nat)
  scheduled_usecs : List Nat
  work_pending : Bool
  deriving DecidableEq, Repr

/-- Error codes returned (negated) by the sysfs store handlers. -/
inductive Errno where
  | EINVAL
  deriving DecidableEq, Repr

/-- Modelled from the spec: the kernel macro `min` of `linux/kernel.h`, which
is not among the sources; it yields its first argument when that one is
strictly smaller and the second otherwise. -/
def kernel_min (x y : Nat) : Nat := if x < y then x else y

/-- Modelled from the spec: the kernel macro `max` of `linux/kernel.h`, which
is not among the sources; it yields its first argument when that one is
strictly greater and the second otherwise. -/
def kernel_max (x y : Nat) : Nat := if x > y then x else y

/-- The globals as initialised at lines 69-77; nothing has been forwarded or
scheduled yet. -/
def init (c : Consts) : Machine :=
  { store :=
      { hardlimit_max_screen_on := c.CPUFREQ_HARDLIMIT_MAX_SCREEN_ON_STOCK
        hardlimit_max_screen_off := c.CPUFREQ_HARDLIMIT_MAX_SCREEN_OFF_STOCK
        wakeup_kick_freq := c.CPUFREQ_HARDLIMIT_MIN_STOCK
        wakeup_kick_delay := c.CPUFREQ_HARDLIMIT_WAKEUP_KICK_DISABLED
        wakeup_kick_active := c.CPUFREQ_HARDLIMIT_WAKEUP_KICK_INACTIVE
        touchboost_lo_freq := c.CPUFREQ_HARDLIMIT_TOUCHBOOST_LO_STOCK
        touchboost_hi_freq := c.CPUFREQ_HARDLIMIT_TOUCHBOOST_HI_STOCK
        current_limit_max := c.CPUFREQ_HARDLIMIT_MAX_SCREEN_ON_STOCK
        current_limit_min := c.CPUFREQ_HARDLIMIT_MIN_STOCK }
    scaling_calls := []
    scheduled_usecs := []
    work_pending := false }

/-- Lines 83-94: the clamp.  The function reads two globals and writes none;
the machine is returned next to the result to make that explicit. -/
def check_cpufreq_hardlimit (m : Machine) (freq : Nat) : Nat × Machine :=
  (kernel_max m.store.current_limit_min (kernel_min m.store.current_limit_max freq), m)

/-- Lines 97-106: forward the active pair to `update_scaling_limits`. -/
def reapply_hard_limits (m : Machine) : Machine :=
  { m with scaling_calls :=
      (m.store.current_limit_min, m.store.current_limit_max) :: m.scaling_calls }

/-- The call `schedule_delayed_work(&stop_wakeup_kick_work, ...)` of line 152:
the request is logged and the work is pending afterwards. -/
def schedule_delayed_work (m : Machine) (usecs : Nat) : Machine :=
  { m with scheduled_usecs := usecs :: m.scheduled_usecs, work_pending := true }

/-- Lines 109-123: the display-off handler. -/
def cpufreq_hardlimit_suspend (c : Consts) (m : Machine) : Machine :=
  let s1 := { m.store with current_limit_min := c.CPUFREQ_HARDLIMIT_MIN_STOCK }
  let s2 := { s1 with current_limit_max := s1.hardlimit_max_screen_off }
  reapply_hard_limits { m with store := s2 }

/-- Lines 125-156: the display-on handler. -/
def cpufreq_hardlimit_resume (c : Consts) (m : Machine) : Machine :=
  if m.store.wakeup_kick_delay = c.CPUFREQ_HARDLIMIT_WAKEUP_KICK_DISABLED then
    let s1 := { m.store with current_limit_min := c.CPUFREQ_HARDLIMIT_MIN_STOCK }
    let s2 := { s1 with current_limit_max := s1.hardlimit_max_screen_on }
    let s3 := { s2 with wakeup_kick_active := c.CPUFREQ_HARDLIMIT_WAKEUP_KICK_INACTIVE }
    reapply_hard_limits { m with store := s3 }
  else
    let s1 := { m.store with current_limit_min := m.store.wakeup_kick_freq }
    let s2 := { s1 with
      current_limit_max :=
        kernel_max s1.hardlimit_max_screen_on
          (kernel_min s1.hardlimit_max_screen_on s1.wakeup_kick_freq) }
    let s3 := { s2 with wakeup_kick_active := c.CPUFREQ_HARDLIMIT_WAKEUP_KICK_ACTIVE }
    reapply_hard_limits
      (schedule_delayed_work { m with store := s3 } ((s3.wakeup_kick_delay * 1000) % 2 ^ 32))

/-- Lines 165-181: the delayed work. -/
def stop_wakeup_kick (c : Consts) (m : Machine) : Machine :=
  let s1 := { m.store with current_limit_min := c.CPUFREQ_HARDLIMIT_MIN_STOCK }
  let s2 := { s1 with current_limit_max := s1.hardlimit_max_screen_on }
  let s3 := { s2 with wakeup_kick_active := c.CPUFREQ_HARDLIMIT_WAKEUP_KICK_INACTIVE }
  reapply_hard_limits { m with store := s3 }

/-- The loop `for (i = 0; table[i].frequency != CPUFREQ_TABLE_END; i++)
if (table[i].frequency == v) ...` shared by the frequency store handlers:
`true` when the body is entered, i.e. `v` is met before the terminator.  The
table is the array of `frequency` members in memory order; a list without a
terminator is scanned to its end. -/
def scan_table (tend : Nat) : List Nat → Nat → Bool
  | [], _ => false
  | f :: rest, v =>
    if f = tend then false
    else if f = v then true
    else scan_table tend rest v

/-- Lines 189-216: store handler of `hardlimit`.  `parsed` is what
`sscanf(buf, "%du", ...)` delivered (`none` when it converted nothing) and
`count` the length handed in by sysfs. -/
def hardlimit_max_screen_on_store (c : Consts) (table : List Nat) (m : Machine)
    (parsed : Option Nat) (count : Nat) : Except Errno Nat × Machine :=
  match parsed with
  | none => (.error .EINVAL, m)
  | some new_hardlimit =>
    if new_hardlimit = m.store.hardlimit_max_screen_on then (.ok count, m)
    else if scan_table c.CPUFREQ_TABLE_END table new_hardlimit then
      let s1 := { m.store with
        hardlimit_max_screen_on := new_hardlimit, current_limit_max := new_hardlimit }
      let s2 := if s1.hardlimit_max_screen_on < s1.wakeup_kick_freq then
        { s1 with wakeup_kick_freq := s1.hardlimit_max_screen_on } else s1
      (.ok count, reapply_hard_limits { m with store := s2 })
    else (.error .EINVAL, m)

/-- Lines 227-251: store handler of `hardlimit_screen_off`. -/
def hardlimit_max_screen_off_store (c : Consts) (table : List Nat) (m : Machine)
    (parsed : Option Nat) (count : Nat) : Except Errno Nat × Machine :=
  match parsed with
  | none => (.error .EINVAL, m)
  | some new_hardlimit =>
    if new_hardlimit = m.store.hardlimit_max_screen_off then (.ok count, m)
    else if scan_table c.CPUFREQ_TABLE_END table new_hardlimit then
      let s1 := { m.store with hardlimit_max_screen_off := new_hardlimit }
      (.ok count, reapply_hard_limits { m with store := s1 })
    else (.error .EINVAL, m)

/-- Lines 262-294: store handler of `wakeup_kick_freq`. -/
def wakeup_kick_freq_store (c : Consts) (table : List Nat) (m : Machine)
    (parsed : Option Nat) (count : Nat) : Except Errno Nat × Machine :=
  match parsed with
  | none => (.error .EINVAL, m)
  | some new_wakeup_kick_freq =>
    if new_wakeup_kick_freq = m.store.wakeup_kick_freq then (.ok count, m)
    else if new_wakeup_kick_freq > m.store.hardlimit_max_screen_on
        ∨ new_wakeup_kick_freq < m.store.hardlimit_max_screen_off then (.error .EINVAL, m)
    else if scan_table c.CPUFREQ_TABLE_END table new_wakeup_kick_freq then
      let s1 := { m.store with wakeup_kick_freq := new_wakeup_kick_freq }
      if s1.wakeup_kick_active = c.CPUFREQ_HARDLIMIT_WAKEUP_KICK_ACTIVE then
        let s2 := { s1 with current_limit_min := s1.wakeup_kick_freq }
        (.ok count, reapply_hard_limits { m with store := s2 })
      else (.ok count, { m with store := s1 })
    else (.error .EINVAL, m)

/-- Lines 305-323: store handler of `wakeup_kick_delay`. -/
def wakeup_kick_delay_store (c : Consts) (m : Machine)
    (parsed : Option Nat) (count : Nat) : Except Errno Nat × Machine :=
  match parsed with
  | none => (.error .EINVAL, m)
  | some new_wakeup_kick_delay =>
    if new_wakeup_kick_delay ≥ c.CPUFREQ_HARDLIMIT_WAKEUP_KICK_DISABLED
        ∧ new_wakeup_kick_delay ≤ c.CPUFREQ_HARDLIMIT_WAKEUP_KICK_DELAY_MAX then
      (.ok count, { m with store := { m.store with wakeup_kick_delay := new_wakeup_kick_delay } })
    else (.error .EINVAL, m)

/-- Lines 334-360: store handler of `touchboost_lo_freq`. -/
def touchboost_lo_freq_store (c : Consts) (table : List Nat) (m : Machine)
    (parsed : Option Nat) (count : Nat) : Except Errno Nat × Machine :=
  match parsed with
  | none => (.error .EINVAL, m)
  | some new_touchboost_lo_freq =>
    if new_touchboost_lo_freq = m.store.touchboost_lo_freq then (.ok count, m)
    else if scan_table c.CPUFREQ_TABLE_END table new_touchboost_lo_freq then
      let s1 := { m.store with touchboost_lo_freq := new_touchboost_lo_freq }
      let s2 := if s1.touchboost_hi_freq < s1.touchboost_lo_freq then
        { s1 with touchboost_hi_freq := s1.touchboost_lo_freq } else s1
      (.ok count, { m with store := s2 })
    else (.error .EINVAL, m)

/-- Lines 371-397: store handler of `touchboost_hi_freq`. -/
def touchboost_hi_freq_store (c : Consts) (table : List Nat) (m : Machine)
    (parsed : Option Nat) (count : Nat) : Except Errno Nat × Machine :=
  match parsed with
  | none => (.error .EINVAL, m)
  | some new_touchboost_hi_freq =>
    if new_touchboost_hi_freq = m.store.touchboost_hi_freq then (.ok count, m)
    else if scan_table c.CPUFREQ_TABLE_END table new_touchboost_hi_freq then
      let s1 := { m.store with touchboost_hi_freq := new_touchboost_hi_freq }
      let s2 := if s1.touchboost_lo_freq > s1.touchboost_hi_freq then
        { s1 with touchboost_lo_freq := s1.touchboost_hi_freq } else s1
      (.ok count, { m with store := s2 })
    else (.error .EINVAL, m)

/-- The workqueue running `stop_wakeup_kick_work`: it happens only while the
work is queued; the work leaves the queue and the callback runs. -/
def fire_stop_wakeup_kick_work (c : Consts) (m : Machine) : Machine :=
  if m.work_pending then stop_wakeup_kick c { m with work_pending := false } else m

/-- The writable sysfs attributes, by file name. -/
inductive Field where
  | hardlimit
  | hardlimit_screen_off
  | wakeup_kick_freq
  | wakeup_kick_delay
  | touchboost_lo_freq
  | touchboost_hi_freq
  deriving DecidableEq, Repr

/-- The store handler registered for an attribute (the `__ATTR` lines). -/
def Field.store (c : Consts) (table : List Nat) (m : Machine) (parsed : Option Nat)
    (count : Nat) : Field → Except Errno Nat × Machine
  | .hardlimit => hardlimit_max_screen_on_store c table m parsed count
  | .hardlimit_screen_off => hardlimit_max_screen_off_store c table m parsed count
  | .wakeup_kick_freq => wakeup_kick_freq_store c table m parsed count
  | .wakeup_kick_delay => wakeup_kick_delay_store c m parsed count
  | .touchboost_lo_freq => touchboost_lo_freq_store c table m parsed count
  | .touchboost_hi_freq => touchboost_hi_freq_store c table m parsed count

/-- The global that the show handler of an attribute reads (the stored
`unsigned int`, before it is formatted). -/
def Field.show (s : Store) : Field → Nat
  | .hardlimit => s.hardlimit_max_screen_on
  | .hardlimit_screen_off => s.hardlimit_max_screen_off
  | .wakeup_kick_freq => s.wakeup_kick_freq
  | .wakeup_kick_delay => s.wakeup_kick_delay
  | .touchboost_lo_freq => s.touchboost_lo_freq
  | .touchboost_hi_freq => s.touchboost_hi_freq

/-- The triggers that reach the module: a sysfs write, the two power-suspend
notifications and the delayed work running. -/
inductive Op where
  | write (field : Field) (parsed : Option Nat) (count : Nat)
  | display_off
  | display_on
  | timer_fires
  deriving DecidableEq, Repr

/-- One trigger applied to the machine. -/
def step (c : Consts) (table : List Nat) (m : Machine) : Op → Machine
  | .write field parsed count => (field.store c table m parsed count).2
  | .display_off => cpufreq_hardlimit_suspend c m
  | .display_on => cpufreq_hardlimit_resume c m
  | .timer_fires => fire_stop_wakeup_kick_work c m

/-- A sequence of triggers applied in order. -/
def run (c : Consts) (table : List Nat) (m : Machine) (ops : List Op) : Machine :=
  ops.foldl (step c table) m

/-- Sample constants used for concrete evaluations. -/
def sampleConsts : Consts :=
  { CPUFREQ_HARDLIMIT_MAX_SCREEN_ON_STOCK := 1700
    CPUFREQ_HARDLIMIT_MAX_SCREEN_OFF_STOCK := 800
    CPUFREQ_HARDLIMIT_MIN_STOCK := 300
    CPUFREQ_HARDLIMIT_WAKEUP_KICK_DISABLED := 0
    CPUFREQ_HARDLIMIT_WAKEUP_KICK_DELAY_MAX := 10000
    CPUFREQ_HARDLIMIT_WAKEUP_KICK_INACTIVE := 0
    CPUFREQ_HARDLIMIT_WAKEUP_KICK_ACTIVE := 1
    CPUFREQ_HARDLIMIT_TOUCHBOOST_LO_STOCK := 800
    CPUFREQ_HARDLIMIT_TOUCHBOOST_HI_STOCK := 1200
    CPUFREQ_TABLE_END := 4294967294 }

/-- A sample frequency table, terminator included. -/
def sampleTable : List Nat := [300, 800, 1200, 1300, 1700, 4294967294]

/-- A frequency `v` is an entry of the table located before the
`CPUFREQ_TABLE_END` terminator: some index holds `v` and no index up to it
holds the terminator. -/
def BeforeEnd (tend : Nat) (table : List Nat) (v : Nat) : Prop :=
  ∃ i : Nat, table[i]? = some v ∧ ∀ j : Nat, j ≤ i → table[j]? ≠ some tend

/-- The sample machine after enabling a 3000 ms kick at 1200 and a display-off,
display-on cycle: the kick is running. -/
def kickingMachine : Machine :=
  run sampleConsts sampleTable (init sampleConsts)
    [ .write .wakeup_kick_delay (some 3000) 5,
      .write .wakeup_kick_freq (some 1200) 5,
      .display_off,
      .display_on ]

/-- A trigger sequence on the sample machine that leaves a stale kick flag
behind: the kick is enabled, the display goes off, on and off again, and the
kick frequency is then raised to 1200. -/
def staleKickOps : List Op :=
  [ .write .wakeup_kick_delay (some 3000) 5,
    .display_off,
    .display_on,
    .display_off,
    .write .wakeup_kick_freq (some 1200) 5 ]

/-- Modelled from the spec: the conversion `%d` of the kernel's `sprintf`
(`lib/vsprintf.c`, not among the sources) applied to an `unsigned int`
argument: the 32 bits are printed as a signed decimal number, so a value below
`2 ^ 31` prints as itself and a larger one as the value minus `2 ^ 32`. -/
def sprintf_d (x : Nat) : Int :=
  if x % 2 ^ 32 < 2 ^ 31 then ((x % 2 ^ 32 : Nat) : Int) else ((x % 2 ^ 32 : Nat) : Int) - 2 ^ 32

/-- Lines 184-187: show handler of `hardlimit`; the number that
`sprintf` writes for the format `%d` and the argument
`hardlimit_max_screen_on`. -/
def hardlimit_max_screen_on_show (m : Machine) : Int :=
  sprintf_d m.store.hardlimit_max_screen_on

/-- Lines 222-225: show handler of `hardlimit_screen_off`. -/
def hardlimit_max_screen_off_show (m : Machine) : Int :=
  sprintf_d m.store.hardlimit_max_screen_off

/-- Lines 257-260: show handler of `wakeup_kick_freq`. -/
def wakeup_kick_freq_show (m : Machine) : Int :=
  sprintf_d m.store.wakeup_kick_freq

/-- Lines 300-303: show handler of `wakeup_kick_delay`. -/
def wakeup_kick_delay_show (m : Machine) : Int :=
  sprintf_d m.store.wakeup_kick_delay

/-- Lines 329-332: show handler of `touchboost_lo_freq`. -/
def touchboost_lo_freq_show (m : Machine) : Int :=
  sprintf_d m.store.touchboost_lo_freq

/-- Lines 366-369: show handler of `touchboost_hi_freq`. -/
def touchboost_hi_freq_show (m : Machine) : Int :=
  sprintf_d m.store.touchboost_hi_freq

/-- The number reported by the show handler registered for an attribute (the
`__ATTR` lines). -/
def Field.show_handler (m : Machine) : Field → Int
  | .hardlimit => hardlimit_max_screen_on_show m
  | .hardlimit_screen_off => hardlimit_max_screen_off_show m
  | .wakeup_kick_freq => wakeup_kick_freq_show m
  | .wakeup_kick_delay => wakeup_kick_delay_show m
  | .touchboost_lo_freq => touchboost_lo_freq_show m
  | .touchboost_hi_freq => touchboost_hi_freq_show m

/-- A frequency table with one entry marked invalid (`CPUFREQ_ENTRY_INVALID`,
all 32 bits set) before the terminator. -/
def invalidEntryTable : List Nat := [300, 4294967295, 800, 1700, 4294967294]

theorem kernel_min_eq (x y : Nat) : kernel_min x y = min x y := by
  unfold kernel_min
  split <;> omega

theorem kernel_max_eq (x y : Nat) : kernel_max x y = max x y := by
  unfold kernel_max
  split <;> omega

theorem scan_table_iff (tend : Nat) (table : List Nat) (v : Nat) :
    scan_table tend table v = true ↔ BeforeEnd tend table v := by
  induction table with
  | nil => simp [scan_table, BeforeEnd]
  | cons f rest ih =>
    unfold scan_table
    by_cases hf : f = tend
    · simp only [hf, if_true]
      constructor
      · intro h; cases h
      · rintro ⟨i, _, hi⟩
        exact absurd (by simp) (hi 0 (Nat.zero_le i))

    · simp only [hf, if_false]
      by_cases hv : f = v
      · simp only [hv, if_true, true_iff]
        refine ⟨0, by simp, ?_⟩
        intro j hj
        have : j = 0 := by omega
        subst this
        simpa [hv] using hf
      · simp only [hv, if_false, ih]
        constructor
        · rintro ⟨i, h1, h2⟩
          refine ⟨i + 1, by simpa using h1, ?_⟩
          intro j hj
          cases j with
          | zero => simpa using hf
          | succ k => simpa using h2 k (by omega)
        · rintro ⟨i, h1, h2⟩
          cases i with
          | zero => simp at h1; exact absurd h1 hv
          | succ k =>
            refine ⟨k, by simpa using h1, ?_⟩
            intro j hj
            simpa using h2 (j + 1) (by omega)

/-- C1: for every machine state and requested frequency, `check_cpufreq_hardlimit`
returns `max(current_limit_min, min(current_limit_max, freq))` and hands back
the machine, store included, exactly as it received it. -/
theorem check_cpufreq_hardlimit_spec (m : Machine) (freq : Nat) :
    (check_cpufreq_hardlimit m freq).1
        = max m.store.current_limit_min (min m.store.current_limit_max freq)
      ∧ (check_cpufreq_hardlimit m freq).2 = m := by
  simp [check_cpufreq_hardlimit, kernel_min_eq, kernel_max_eq]

/-- C2: when `current_limit_min ≤ current_limit_max`, the clamped frequency lies
in the closed interval `[current_limit_min, current_limit_max]`. -/
theorem check_cpufreq_hardlimit_within (m : Machine) (freq : Nat)
    (h : m.store.current_limit_min ≤ m.store.current_limit_max) :
    m.store.current_limit_min ≤ (check_cpufreq_hardlimit m freq).1
      ∧ (check_cpufreq_hardlimit m freq).1 ≤ m.store.current_limit_max := by
  simp only [check_cpufreq_hardlimit, kernel_min_eq, kernel_max_eq]
  omega

theorem check_cpufreq_hardlimit_within_witness :
    (init sampleConsts).store.current_limit_min ≤ (init sampleConsts).store.current_limit_max
      ∧ (init sampleConsts).store.current_limit_min
          ≤ (check_cpufreq_hardlimit (init sampleConsts) 2000).1
      ∧ (check_cpufreq_hardlimit (init sampleConsts) 2000).1
          ≤ (init sampleConsts).store.current_limit_max :=
  ⟨by decide, check_cpufreq_hardlimit_within (init sampleConsts) 2000 (by decide)⟩



/-! ## Ordering of the active pair -/

theorem touchboost_ordered_step (c : Consts) (table : List Nat) (m : Machine) (op : Op)
    (h : m.store.touchboost_lo_freq ≤ m.store.touchboost_hi_freq) :
    (step c table m op).store.touchboost_lo_freq
      ≤ (step c table m op).store.touchboost_hi_freq := by
  cases op with
  | write field parsed count =>
    cases parsed with
    | none => cases field <;> exact h
    | some v =>
      cases field <;> simp only [step, Field.store, hardlimit_max_screen_on_store,
        hardlimit_max_screen_off_store, wakeup_kick_freq_store, wakeup_kick_delay_store,
        touchboost_lo_freq_store, touchboost_hi_freq_store, reapply_hard_limits] <;>
        split_ifs <;> simp <;> omega
  | display_off => exact h
  | display_on =>
    simp only [step, cpufreq_hardlimit_resume, reapply_hard_limits, schedule_delayed_work]
    split_ifs <;> exact h
  | timer_fires =>
    simp only [step, fire_stop_wakeup_kick_work, stop_wakeup_kick, reapply_hard_limits]
    split_ifs <;> exact h

theorem touchboost_ordered_run (c : Consts) (table : List Nat) (ops : List Op) :
    ∀ m : Machine, m.store.touchboost_lo_freq ≤ m.store.touchboost_hi_freq →
      (run c table m ops).store.touchboost_lo_freq
        ≤ (run c table m ops).store.touchboost_hi_freq := by
  induction ops with
  | nil => intro m h; exact h
  | cons op rest ih =>
    intro m h
    exact ih (step c table m op) (touchboost_ordered_step c table m op h)

/-- C4: `touchboost_lo_freq ≤ touchboost_hi_freq` is preserved by every trigger
(any sysfs write, accepted or rejected, display-off, display-on, the delayed
work firing, and the callback `stop_wakeup_kick` itself), hence by every
sequence of triggers from any state that satisfies it. -/
theorem touchboost_lo_le_hi_preserved (c : Consts) (table : List Nat) (m : Machine)
    (ops : List Op) (h : m.store.touchboost_lo_freq ≤ m.store.touchboost_hi_freq) :
    (∀ op : Op, (step c table m op).store.touchboost_lo_freq
        ≤ (step c table m op).store.touchboost_hi_freq)
      ∧ (stop_wakeup_kick c m).store.touchboost_lo_freq
          ≤ (stop_wakeup_kick c m).store.touchboost_hi_freq
      ∧ (run c table m ops).store.touchboost_lo_freq
          ≤ (run c table m ops).store.touchboost_hi_freq :=
  ⟨fun op => touchboost_ordered_step c table m op h, h, touchboost_ordered_run c table ops m h⟩

theorem touchboost_lo_le_hi_preserved_witness :
    (init sampleConsts).store.touchboost_lo_freq ≤ (init sampleConsts).store.touchboost_hi_freq
      ∧ (run sampleConsts sampleTable (init sampleConsts)
            [.write .touchboost_hi_freq (some 300) 4, .display_off,
              .write .touchboost_lo_freq (some 1700) 5]).store.touchboost_lo_freq
          ≤ (run sampleConsts sampleTable (init sampleConsts)
            [.write .touchboost_hi_freq (some 300) 4, .display_off,
              .write .touchboost_lo_freq (some 1700) 5]).store.touchboost_hi_freq :=
  ⟨by decide,
    (touchboost_lo_le_hi_preserved sampleConsts sampleTable (init sampleConsts)
      [.write .touchboost_hi_freq (some 300) 4, .display_off,
        .write .touchboost_lo_freq (some 1700) 5] (by decide)).2.2⟩

/-! ## Rejected and accepted writes -/

/-- C5: a store handler that returns `-EINVAL` leaves every field of the store
as it was (and the whole machine with it: nothing is forwarded or scheduled). -/
theorem store_error_changes_nothing (c : Consts) (table : List Nat) (m : Machine)
    (field : Field) (parsed : Option Nat) (count : Nat)
    (h : (field.store c table m parsed count).1 = .error .EINVAL) :
    (field.store c table m parsed count).2.store = m.store
      ∧ (field.store c table m parsed count).2 = m := by
  cases parsed with
  | none => cases field <;> exact ⟨rfl, rfl⟩
  | some v =>
    cases field <;> simp only [Field.store, hardlimit_max_screen_on_store,
      hardlimit_max_screen_off_store, wakeup_kick_freq_store, wakeup_kick_delay_store,
      touchboost_lo_freq_store, touchboost_hi_freq_store] at h ⊢ <;>
      split_ifs at h ⊢ <;> exact ⟨rfl, rfl⟩

theorem store_error_changes_nothing_witness :
    (Field.hardlimit.store sampleConsts sampleTable kickingMachine (some 1000) 5).1
        = .error .EINVAL
      ∧ (Field.hardlimit.store sampleConsts sampleTable kickingMachine (some 1000) 5).2.store
        = kickingMachine.store :=
  ⟨rfl, (store_error_changes_nothing sampleConsts sampleTable kickingMachine .hardlimit
    (some 1000) 5 rfl).1⟩

/-- C6: for `hardlimit`, `hardlimit_screen_off`, `touchboost_lo_freq` and
`touchboost_hi_freq`, a write of a candidate that differs from the current
value returns `count` exactly when the candidate is a table entry before the
`CPUFREQ_TABLE_END` terminator and `-EINVAL` otherwise; a `wakeup_kick_delay`
write returns `count` exactly when the candidate lies between
`CPUFREQ_HARDLIMIT_WAKEUP_KICK_DISABLED` and
`CPUFREQ_HARDLIMIT_WAKEUP_KICK_DELAY_MAX` and `-EINVAL` otherwise. -/
theorem store_accepts_iff (c : Consts) (table : List Nat) (m : Machine) (v count : Nat) :
    (∀ field : Field, field ≠ .wakeup_kick_freq → field ≠ .wakeup_kick_delay →
        v ≠ field.show m.store →
        ((field.store c table m (some v) count).1 = .ok count
            ↔ BeforeEnd c.CPUFREQ_TABLE_END table v)
          ∧ (¬ BeforeEnd c.CPUFREQ_TABLE_END table v →
              (field.store c table m (some v) count).1 = .error .EINVAL))
      ∧ ((Field.wakeup_kick_delay.store c table m (some v) count).1 = .ok count
          ↔ (c.CPUFREQ_HARDLIMIT_WAKEUP_KICK_DISABLED ≤ v
              ∧ v ≤ c.CPUFREQ_HARDLIMIT_WAKEUP_KICK_DELAY_MAX))
      ∧ (¬ (c.CPUFREQ_HARDLIMIT_WAKEUP_KICK_DISABLED ≤ v
              ∧ v ≤ c.CPUFREQ_HARDLIMIT_WAKEUP_KICK_DELAY_MAX) →
          (Field.wakeup_kick_delay.store c table m (some v) count).1 = .error .EINVAL) := by
  refine ⟨?_, ?_, ?_⟩
  · intro field h1 h2 hne
    rw [← scan_table_iff]
    cases field <;> first
      | exact absurd rfl h1
      | exact absurd rfl h2
      | (simp only [Field.store, Field.show, hardlimit_max_screen_on_store,
          hardlimit_max_screen_off_store, touchboost_lo_freq_store,
          touchboost_hi_freq_store] at hne ⊢
         split_ifs <;> simp_all)
  · simp only [Field.store, wakeup_kick_delay_store]
    split_ifs <;> simp_all
  · intro h
    simp only [Field.store, wakeup_kick_delay_store]
    split_ifs <;> simp_all

theorem store_accepts_iff_witness :
    (1200 ≠ Field.show kickingMachine.store .touchboost_lo_freq)
      ∧ BeforeEnd sampleConsts.CPUFREQ_TABLE_END sampleTable 1200
      ∧ (Field.touchboost_lo_freq.store sampleConsts sampleTable kickingMachine
          (some 1200) 5).1 = .ok 5 :=
  ⟨by decide, ⟨2, rfl, by decide⟩,
    ((store_accepts_iff sampleConsts sampleTable kickingMachine 1200 5).1 .touchboost_lo_freq
      (by decide) (by decide) (by decide)).1.2 ⟨2, rfl, by decide⟩⟩

/-- C8: for every state and every write to `hardlimit` of a value `v` that
differs from the current ceiling and is a table entry before the terminator,
the write returns `count` and afterwards
`wakeup_kick_freq = min (old wakeup_kick_freq) v`. -/
theorem hardlimit_store_caps_kick_freq (c : Consts) (table : List Nat) (m : Machine)
    (v count : Nat) (h_new : v ≠ m.store.hardlimit_max_screen_on)
    (h_tab : BeforeEnd c.CPUFREQ_TABLE_END table v) :
    (hardlimit_max_screen_on_store c table m (some v) count).1 = .ok count
      ∧ (hardlimit_max_screen_on_store c table m (some v) count).2.store.wakeup_kick_freq
          = min m.store.wakeup_kick_freq v := by
  have hs := (scan_table_iff _ _ _).2 h_tab
  simp only [hardlimit_max_screen_on_store, if_neg h_new, hs, if_true, reapply_hard_limits]
  refine ⟨trivial, ?_⟩
  split_ifs <;> simp <;> omega

theorem hardlimit_store_caps_kick_freq_witness :
    (run sampleConsts sampleTable (init sampleConsts)
        [.write .wakeup_kick_freq (some 1300) 5]).store.wakeup_kick_freq = 1300
      ∧ (hardlimit_max_screen_on_store sampleConsts sampleTable
          (run sampleConsts sampleTable (init sampleConsts)
            [.write .wakeup_kick_freq (some 1300) 5]) (some 1200) 5).1 = .ok 5
      ∧ (hardlimit_max_screen_on_store sampleConsts sampleTable
          (run sampleConsts sampleTable (init sampleConsts)
            [.write .wakeup_kick_freq (some 1300) 5]) (some 1200) 5).2.store.wakeup_kick_freq
          = min 1300 1200 :=
  ⟨by decide,
    hardlimit_store_caps_kick_freq sampleConsts sampleTable
      (run sampleConsts sampleTable (init sampleConsts)
        [.write .wakeup_kick_freq (some 1300) 5]) 1200 5 (by decide) ⟨2, rfl, by decide⟩⟩

/-! ## Power state and wakeup kick -/

/-- C7 (counterexample): on the sample machine with a running kick and its
timer pending, a display-off followed by the delayed work firing ends with
`current_limit_max = 1700`, the screen-on ceiling, not the screen-off ceiling
800; the callback changed the store of the screen-off state. -/
theorem suspend_then_timer_restores_screen_on_ceiling :
    kickingMachine.store.wakeup_kick_active
        = sampleConsts.CPUFREQ_HARDLIMIT_WAKEUP_KICK_ACTIVE
      ∧ kickingMachine.work_pending = true
      ∧ (cpufreq_hardlimit_suspend sampleConsts kickingMachine).store.current_limit_max = 800
      ∧ (fire_stop_wakeup_kick_work sampleConsts
          (cpufreq_hardlimit_suspend sampleConsts kickingMachine)).store.current_limit_max = 1700
      ∧ (fire_stop_wakeup_kick_work sampleConsts
          (cpufreq_hardlimit_suspend sampleConsts kickingMachine)).store.hardlimit_max_screen_off
          = 800
      ∧ (stop_wakeup_kick sampleConsts
          (cpufreq_hardlimit_suspend sampleConsts kickingMachine)).store
          ≠ (cpufreq_hardlimit_suspend sampleConsts kickingMachine).store := by
  decide

/-- C7 (amended): for every state with the kick active and its timer pending,
a display-off notification keeps `wakeup_kick_active` active and the timer
pending, and the delayed work firing afterwards leaves
`current_limit_min` at the stock minimum, `current_limit_max` at
`hardlimit_max_screen_on` and `wakeup_kick_active` inactive; the callback
`stop_wakeup_kick` makes these three assignments in every state. -/
theorem suspend_then_timer_reverts (c : Consts) (m : Machine)
    (h_active : m.store.wakeup_kick_active = c.CPUFREQ_HARDLIMIT_WAKEUP_KICK_ACTIVE)
    (h_pending : m.work_pending = true) :
    (cpufreq_hardlimit_suspend c m).store.wakeup_kick_active
        = c.CPUFREQ_HARDLIMIT_WAKEUP_KICK_ACTIVE
      ∧ (cpufreq_hardlimit_suspend c m).work_pending = true
      ∧ (fire_stop_wakeup_kick_work c (cpufreq_hardlimit_suspend c m)).store.current_limit_min
          = c.CPUFREQ_HARDLIMIT_MIN_STOCK
      ∧ (fire_stop_wakeup_kick_work c (cpufreq_hardlimit_suspend c m)).store.current_limit_max
          = m.store.hardlimit_max_screen_on
      ∧ (fire_stop_wakeup_kick_work c (cpufreq_hardlimit_suspend c m)).store.wakeup_kick_active
          = c.CPUFREQ_HARDLIMIT_WAKEUP_KICK_INACTIVE
      ∧ ∀ m1 : Machine, (stop_wakeup_kick c m1).store =
          { m1.store with
            current_limit_min := c.CPUFREQ_HARDLIMIT_MIN_STOCK
            current_limit_max := m1.store.hardlimit_max_screen_on
            wakeup_kick_active := c.CPUFREQ_HARDLIMIT_WAKEUP_KICK_INACTIVE } := by
  refine ⟨h_active, h_pending, ?_, ?_, ?_, fun m1 => rfl⟩ <;>
    simp [fire_stop_wakeup_kick_work, cpufreq_hardlimit_suspend, reapply_hard_limits,
      stop_wakeup_kick, h_pending]

theorem suspend_then_timer_reverts_witness :
    kickingMachine.store.wakeup_kick_active
        = sampleConsts.CPUFREQ_HARDLIMIT_WAKEUP_KICK_ACTIVE
      ∧ kickingMachine.work_pending = true
      ∧ (fire_stop_wakeup_kick_work sampleConsts
          (cpufreq_hardlimit_suspend sampleConsts kickingMachine)).store.current_limit_max
          = kickingMachine.store.hardlimit_max_screen_on :=
  ⟨by decide, by decide,
    (suspend_then_timer_reverts sampleConsts kickingMachine (by decide) (by decide)).2.2.2.1⟩

/-- C9: for every state with `wakeup_kick_delay` different from the disabled
value, the display-on handler yields `current_limit_min = wakeup_kick_freq`,
`current_limit_max = max on (min on wakeup_kick_freq)` with
`on = hardlimit_max_screen_on`, and `wakeup_kick_active` active; that ceiling
equals `hardlimit_max_screen_on` for every `wakeup_kick_freq`. -/
theorem resume_with_kick (c : Consts) (m : Machine)
    (h : m.store.wakeup_kick_delay ≠ c.CPUFREQ_HARDLIMIT_WAKEUP_KICK_DISABLED) :
    (cpufreq_hardlimit_resume c m).store.current_limit_min = m.store.wakeup_kick_freq
      ∧ (cpufreq_hardlimit_resume c m).store.current_limit_max
          = max m.store.hardlimit_max_screen_on
              (min m.store.hardlimit_max_screen_on m.store.wakeup_kick_freq)
      ∧ (cpufreq_hardlimit_resume c m).store.wakeup_kick_active
          = c.CPUFREQ_HARDLIMIT_WAKEUP_KICK_ACTIVE
      ∧ (cpufreq_hardlimit_resume c m).store.current_limit_max
          = m.store.hardlimit_max_screen_on := by
  simp [cpufreq_hardlimit_resume, h, reapply_hard_limits, schedule_delayed_work,
    kernel_min_eq, kernel_max_eq]

theorem resume_with_kick_witness :
    kickingMachine.store.wakeup_kick_delay ≠ sampleConsts.CPUFREQ_HARDLIMIT_WAKEUP_KICK_DISABLED
      ∧ (cpufreq_hardlimit_resume sampleConsts
          (cpufreq_hardlimit_suspend sampleConsts kickingMachine)).store.current_limit_min = 1200
      ∧ (cpufreq_hardlimit_resume sampleConsts
          (cpufreq_hardlimit_suspend sampleConsts kickingMachine)).store.current_limit_max = 1700
      ∧ (cpufreq_hardlimit_resume sampleConsts
          (cpufreq_hardlimit_suspend sampleConsts kickingMachine)).store.wakeup_kick_active
          = sampleConsts.CPUFREQ_HARDLIMIT_WAKEUP_KICK_ACTIVE :=
  ⟨by decide,
    (resume_with_kick sampleConsts (cpufreq_hardlimit_suspend sampleConsts kickingMachine)
      (by decide)).1,
    (resume_with_kick sampleConsts (cpufreq_hardlimit_suspend sampleConsts kickingMachine)
      (by decide)).2.2.2,
    (resume_with_kick sampleConsts (cpufreq_hardlimit_suspend sampleConsts kickingMachine)
      (by decide)).2.2.1⟩

/-- C10: for every state with the kick active, the callback `stop_wakeup_kick`
yields `current_limit_min` = stock minimum, `current_limit_max =
hardlimit_max_screen_on` and `wakeup_kick_active` inactive, and leaves the six
other fields of the store as they were.  The callback does not test the
hypothesis. -/
theorem stop_wakeup_kick_ends_kick (c : Consts) (m : Machine)
    (_h : m.store.wakeup_kick_active = c.CPUFREQ_HARDLIMIT_WAKEUP_KICK_ACTIVE) :
    (stop_wakeup_kick c m).store.current_limit_min = c.CPUFREQ_HARDLIMIT_MIN_STOCK
      ∧ (stop_wakeup_kick c m).store.current_limit_max = m.store.hardlimit_max_screen_on
      ∧ (stop_wakeup_kick c m).store.wakeup_kick_active
          = c.CPUFREQ_HARDLIMIT_WAKEUP_KICK_INACTIVE
      ∧ (stop_wakeup_kick c m).store.hardlimit_max_screen_on = m.store.hardlimit_max_screen_on
      ∧ (stop_wakeup_kick c m).store.hardlimit_max_screen_off
          = m.store.hardlimit_max_screen_off
      ∧ (stop_wakeup_kick c m).store.wakeup_kick_freq = m.store.wakeup_kick_freq
      ∧ (stop_wakeup_kick c m).store.wakeup_kick_delay = m.store.wakeup_kick_delay
      ∧ (stop_wakeup_kick c m).store.touchboost_lo_freq = m.store.touchboost_lo_freq
      ∧ (stop_wakeup_kick c m).store.touchboost_hi_freq = m.store.touchboost_hi_freq :=
  ⟨rfl, rfl, rfl, rfl, rfl, rfl, rfl, rfl, rfl⟩

theorem stop_wakeup_kick_ends_kick_witness :
    kickingMachine.store.wakeup_kick_active
        = sampleConsts.CPUFREQ_HARDLIMIT_WAKEUP_KICK_ACTIVE
      ∧ (stop_wakeup_kick sampleConsts kickingMachine).store.current_limit_min = 300
      ∧ (stop_wakeup_kick sampleConsts kickingMachine).store.current_limit_max = 1700
      ∧ (stop_wakeup_kick sampleConsts kickingMachine).store.wakeup_kick_active = 0 :=
  ⟨by decide,
    (stop_wakeup_kick_ends_kick sampleConsts kickingMachine (by decide)).1,
    (stop_wakeup_kick_ends_kick sampleConsts kickingMachine (by decide)).2.1,
    (stop_wakeup_kick_ends_kick sampleConsts kickingMachine (by decide)).2.2.1⟩

/-! ## Display-off and display-on -/

/-- C11: for every state, the display-off handler yields `current_limit_min` =
stock minimum and `current_limit_max = hardlimit_max_screen_off` (the
screen-off ceiling itself is left as it was). -/
theorem suspend_sets_screen_off_limits (c : Consts) (m : Machine) :
    (cpufreq_hardlimit_suspend c m).store.current_limit_min = c.CPUFREQ_HARDLIMIT_MIN_STOCK
      ∧ (cpufreq_hardlimit_suspend c m).store.current_limit_max
          = m.store.hardlimit_max_screen_off
      ∧ (cpufreq_hardlimit_suspend c m).store.current_limit_max
          = (cpufreq_hardlimit_suspend c m).store.hardlimit_max_screen_off :=
  ⟨rfl, rfl, rfl⟩

/-- C13: for every state with `wakeup_kick_delay` equal to the disabled value,
a display-off followed by a display-on yields `current_limit_min` = stock
minimum, `current_limit_max = hardlimit_max_screen_on` and
`wakeup_kick_active` inactive. -/
theorem suspend_resume_without_kick (c : Consts) (m : Machine)
    (h : m.store.wakeup_kick_delay = c.CPUFREQ_HARDLIMIT_WAKEUP_KICK_DISABLED) :
    (cpufreq_hardlimit_resume c (cpufreq_hardlimit_suspend c m)).store.current_limit_min
        = c.CPUFREQ_HARDLIMIT_MIN_STOCK
      ∧ (cpufreq_hardlimit_resume c (cpufreq_hardlimit_suspend c m)).store.current_limit_max
          = m.store.hardlimit_max_screen_on
      ∧ (cpufreq_hardlimit_resume c (cpufreq_hardlimit_suspend c m)).store.wakeup_kick_active
          = c.CPUFREQ_HARDLIMIT_WAKEUP_KICK_INACTIVE := by
  simp [cpufreq_hardlimit_resume, cpufreq_hardlimit_suspend, reapply_hard_limits, h]

theorem suspend_resume_without_kick_witness :
    (init sampleConsts).store.wakeup_kick_delay
        = sampleConsts.CPUFREQ_HARDLIMIT_WAKEUP_KICK_DISABLED
      ∧ (cpufreq_hardlimit_resume sampleConsts
          (cpufreq_hardlimit_suspend sampleConsts (init sampleConsts))).store.current_limit_min
          = 300
      ∧ (cpufreq_hardlimit_resume sampleConsts
          (cpufreq_hardlimit_suspend sampleConsts (init sampleConsts))).store.current_limit_max
          = 1700
      ∧ (cpufreq_hardlimit_resume sampleConsts
          (cpufreq_hardlimit_suspend sampleConsts (init sampleConsts))).store.wakeup_kick_active
          = 0 :=
  ⟨by decide, suspend_resume_without_kick sampleConsts (init sampleConsts) (by decide)⟩

theorem run_append (c : Consts) (table : List Nat) (m : Machine) (xs ys : List Op) :
    run c table m (xs ++ ys) = run c table (run c table m xs) ys := by
  simp [run, List.foldl_append]

theorem kick_has_work_step (c : Consts) (table : List Nat) (m : Machine) (op : Op)
    (h_ne : c.CPUFREQ_HARDLIMIT_WAKEUP_KICK_ACTIVE ≠ c.CPUFREQ_HARDLIMIT_WAKEUP_KICK_INACTIVE)
    (h : m.store.wakeup_kick_active = c.CPUFREQ_HARDLIMIT_WAKEUP_KICK_ACTIVE →
      m.work_pending = true) :
    (step c table m op).store.wakeup_kick_active = c.CPUFREQ_HARDLIMIT_WAKEUP_KICK_ACTIVE →
      (step c table m op).work_pending = true := by
  cases op with
  | write field parsed count =>
    cases parsed with
    | none => cases field <;> exact h
    | some v =>
      cases field <;> simp only [step, Field.store, hardlimit_max_screen_on_store,
        hardlimit_max_screen_off_store, wakeup_kick_freq_store, wakeup_kick_delay_store,
        touchboost_lo_freq_store, touchboost_hi_freq_store, reapply_hard_limits] <;>
        split_ifs <;> exact h
  | display_off => exact h
  | display_on =>
    simp only [step, cpufreq_hardlimit_resume, reapply_hard_limits, schedule_delayed_work]
    split_ifs
    · intro h1; exact absurd h1.symm h_ne
    · intro _; rfl
  | timer_fires =>
    simp only [step, fire_stop_wakeup_kick_work, stop_wakeup_kick, reapply_hard_limits]
    split_ifs
    · intro h1; exact absurd h1.symm h_ne
    · exact h

theorem kick_has_work_run (c : Consts) (table : List Nat)
    (h_ne : c.CPUFREQ_HARDLIMIT_WAKEUP_KICK_ACTIVE ≠ c.CPUFREQ_HARDLIMIT_WAKEUP_KICK_INACTIVE)
    (ops : List Op) :
    ∀ m : Machine,
      (m.store.wakeup_kick_active = c.CPUFREQ_HARDLIMIT_WAKEUP_KICK_ACTIVE →
        m.work_pending = true) →
      (run c table m ops).store.wakeup_kick_active = c.CPUFREQ_HARDLIMIT_WAKEUP_KICK_ACTIVE →
      (run c table m ops).work_pending = true := by
  induction ops with
  | nil => intro m h; exact h
  | cons op rest ih =>
    intro m h
    exact ih (step c table m op) (kick_has_work_step c table m op h_ne h)

theorem write_keeps_kick_active (c : Consts) (table : List Nat) (m : Machine)
    (field : Field) (parsed : Option Nat) (count : Nat) :
    (field.store c table m parsed count).2.store.wakeup_kick_active
      = m.store.wakeup_kick_active := by
  cases parsed with
  | none => cases field <;> rfl
  | some v =>
    cases field <;> simp only [Field.store, hardlimit_max_screen_on_store,
      hardlimit_max_screen_off_store, wakeup_kick_freq_store, wakeup_kick_delay_store,
      touchboost_lo_freq_store, touchboost_hi_freq_store, reapply_hard_limits] <;>
      split_ifs <;> rfl

/-- C12 (counterexample): on the sample machine with a running kick, the
display-off handler leaves `wakeup_kick_active` at the active value and the
delayed work pending. -/
theorem suspend_keeps_kick_active :
    (cpufreq_hardlimit_suspend sampleConsts kickingMachine).store.wakeup_kick_active
        = sampleConsts.CPUFREQ_HARDLIMIT_WAKEUP_KICK_ACTIVE
      ∧ (cpufreq_hardlimit_suspend sampleConsts kickingMachine).store.wakeup_kick_active
        ≠ sampleConsts.CPUFREQ_HARDLIMIT_WAKEUP_KICK_INACTIVE
      ∧ (cpufreq_hardlimit_suspend sampleConsts kickingMachine).work_pending = true := by
  decide

/-- C12 (amended): the display-off handler leaves `wakeup_kick_active` and the
pending delayed work as they were; and, the active and inactive values being
distinct, in every state reachable from the stock defaults
`wakeup_kick_active` is active only after a display-on notification that found
the kick enabled and has been followed by no firing of the delayed work and no
further display-on notification. -/
theorem kick_active_only_after_display_on (c : Consts) (table : List Nat)
    (h_ne : c.CPUFREQ_HARDLIMIT_WAKEUP_KICK_ACTIVE ≠ c.CPUFREQ_HARDLIMIT_WAKEUP_KICK_INACTIVE) :
    (∀ m : Machine,
        (cpufreq_hardlimit_suspend c m).store.wakeup_kick_active = m.store.wakeup_kick_active
          ∧ (cpufreq_hardlimit_suspend c m).work_pending = m.work_pending)
      ∧ ∀ ops : List Op,
        (run c table (init c) ops).store.wakeup_kick_active
            = c.CPUFREQ_HARDLIMIT_WAKEUP_KICK_ACTIVE →
          ∃ pre post : List Op, ops = pre ++ Op.display_on :: post
            ∧ (run c table (init c) pre).store.wakeup_kick_delay
                ≠ c.CPUFREQ_HARDLIMIT_WAKEUP_KICK_DISABLED
            ∧ ∀ op ∈ post, op ≠ Op.display_on ∧ op ≠ Op.timer_fires := by
  refine ⟨fun m => ⟨rfl, rfl⟩, ?_⟩
  intro ops
  induction ops using List.reverseRecOn with
  | nil => intro h; exact absurd h.symm h_ne
  | append_singleton l a ih =>
    intro h
    rw [run_append] at h
    have hstep : run c table (run c table (init c) l) [a]
        = step c table (run c table (init c) l) a := rfl
    rw [hstep] at h
    have extend : (step c table (run c table (init c) l) a).store.wakeup_kick_active
          = (run c table (init c) l).store.wakeup_kick_active →
        a ≠ Op.display_on → a ≠ Op.timer_fires →
        ∃ pre post : List Op, l ++ [a] = pre ++ Op.display_on :: post
          ∧ (run c table (init c) pre).store.wakeup_kick_delay
              ≠ c.CPUFREQ_HARDLIMIT_WAKEUP_KICK_DISABLED
          ∧ ∀ op ∈ post, op ≠ Op.display_on ∧ op ≠ Op.timer_fires := by
      intro heq h1 h2
      obtain ⟨pre, post, hl, hd, hp⟩ := ih (heq ▸ h)
      refine ⟨pre, post ++ [a], by simp [hl], hd, ?_⟩
      intro op hop
      rcases List.mem_append.1 hop with hop | hop
      · exact hp op hop
      · rw [List.mem_singleton.1 hop]; exact ⟨h1, h2⟩
    cases a with
    | write field parsed count =>
      exact extend (write_keeps_kick_active c table _ field parsed count)
        (fun e => Op.noConfusion e) (fun e => Op.noConfusion e)
    | display_off =>
      exact extend rfl (fun e => Op.noConfusion e) (fun e => Op.noConfusion e)
    | display_on =>
      refine ⟨l, [], rfl, ?_, fun op hop => absurd hop (List.not_mem_nil op)⟩
      intro hd
      simp only [step, cpufreq_hardlimit_resume, hd, if_true, reapply_hard_limits] at h
      exact h_ne h.symm
    | timer_fires =>
      exfalso
      have hw := kick_has_work_run c table h_ne l (init c)
        (fun h0 => absurd h0.symm h_ne)
      simp only [step, fire_stop_wakeup_kick_work] at h
      split_ifs at h with hp
      · simp only [stop_wakeup_kick, reapply_hard_limits] at h
        exact h_ne h.symm
      · exact hp (hw h)

theorem kick_active_only_after_display_on_witness :
    sampleConsts.CPUFREQ_HARDLIMIT_WAKEUP_KICK_ACTIVE
        ≠ sampleConsts.CPUFREQ_HARDLIMIT_WAKEUP_KICK_INACTIVE
      ∧ (run sampleConsts sampleTable (init sampleConsts) staleKickOps).store.wakeup_kick_active
        = sampleConsts.CPUFREQ_HARDLIMIT_WAKEUP_KICK_ACTIVE
      ∧ ∃ pre post : List Op, staleKickOps = pre ++ Op.display_on :: post
          ∧ (run sampleConsts sampleTable (init sampleConsts) pre).store.wakeup_kick_delay
              ≠ sampleConsts.CPUFREQ_HARDLIMIT_WAKEUP_KICK_DISABLED
          ∧ ∀ op ∈ post, op ≠ Op.display_on ∧ op ≠ Op.timer_fires :=
  ⟨by decide, by decide,
    (kick_active_only_after_display_on sampleConsts sampleTable (by decide)).2 staleKickOps
      (by decide)⟩

/-! ## Effects of the store handlers -/

/-- C15: for every state and every candidate that differs from the current
`wakeup_kick_freq`, the `wakeup_kick_freq` write returns `count` exactly when
`hardlimit_max_screen_off ≤ candidate ≤ hardlimit_max_screen_on` and the
candidate is a table entry before the terminator; otherwise it returns
`-EINVAL`. -/
theorem wakeup_kick_freq_store_accepts_iff (c : Consts) (table : List Nat) (m : Machine)
    (v count : Nat) (h_new : v ≠ m.store.wakeup_kick_freq) :
    ((wakeup_kick_freq_store c table m (some v) count).1 = .ok count
        ↔ (m.store.hardlimit_max_screen_off ≤ v ∧ v ≤ m.store.hardlimit_max_screen_on
            ∧ BeforeEnd c.CPUFREQ_TABLE_END table v))
      ∧ (¬ (m.store.hardlimit_max_screen_off ≤ v ∧ v ≤ m.store.hardlimit_max_screen_on
            ∧ BeforeEnd c.CPUFREQ_TABLE_END table v) →
          (wakeup_kick_freq_store c table m (some v) count).1 = .error .EINVAL) := by
  rw [← scan_table_iff]
  have hok : (m.store.hardlimit_max_screen_off ≤ v ∧ v ≤ m.store.hardlimit_max_screen_on
        ∧ scan_table c.CPUFREQ_TABLE_END table v = true) →
      (wakeup_kick_freq_store c table m (some v) count).1 = .ok count := by
    rintro ⟨h1, h2, h3⟩
    have hr : ¬ (v > m.store.hardlimit_max_screen_on ∨ v < m.store.hardlimit_max_screen_off) := by
      omega
    simp only [wakeup_kick_freq_store, if_neg h_new, if_neg hr, h3, if_true]
    split_ifs <;> rfl
  have herr : ¬ (m.store.hardlimit_max_screen_off ≤ v ∧ v ≤ m.store.hardlimit_max_screen_on
        ∧ scan_table c.CPUFREQ_TABLE_END table v = true) →
      (wakeup_kick_freq_store c table m (some v) count).1 = .error .EINVAL := by
    intro h
    simp only [wakeup_kick_freq_store, if_neg h_new]
    by_cases hr : v > m.store.hardlimit_max_screen_on ∨ v < m.store.hardlimit_max_screen_off
    · rw [if_pos hr]
    · rw [if_neg hr]
      have hs : ¬ scan_table c.CPUFREQ_TABLE_END table v = true :=
        fun hs => h ⟨by omega, by omega, hs⟩
      rw [if_neg hs]
  refine ⟨⟨fun h => ?_, hok⟩, herr⟩
  by_contra hP
  rw [herr hP] at h
  cases h

theorem wakeup_kick_freq_store_accepts_iff_witness :
    1200 ≠ (init sampleConsts).store.wakeup_kick_freq
      ∧ (wakeup_kick_freq_store sampleConsts sampleTable (init sampleConsts) (some 1200) 5).1
          = .ok 5
      ∧ (init sampleConsts).store.hardlimit_max_screen_off ≤ 1200
      ∧ 1200 ≤ (init sampleConsts).store.hardlimit_max_screen_on
      ∧ BeforeEnd sampleConsts.CPUFREQ_TABLE_END sampleTable 1200 :=
  ⟨by decide, rfl,
    (wakeup_kick_freq_store_accepts_iff sampleConsts sampleTable (init sampleConsts) 1200 5
      (by decide)).1.1 rfl⟩

/-- C16: for every state and every table entry `v` before the terminator, a
`touchboost_hi_freq` write of `v` (different from the current value) returns
`count`, sets `touchboost_hi_freq = v` and `touchboost_lo_freq = min old v`;
a `touchboost_lo_freq` write of `v` (different from the current value) returns
`count`, sets `touchboost_lo_freq = v` and `touchboost_hi_freq = max old v`;
in both cases nothing else in the machine changes. -/
theorem touchboost_store_effects (c : Consts) (table : List Nat) (m : Machine)
    (v count : Nat) (h_tab : BeforeEnd c.CPUFREQ_TABLE_END table v) :
    (v ≠ m.store.touchboost_hi_freq →
        touchboost_hi_freq_store c table m (some v) count
          = (.ok count, { m with store := { m.store with
              touchboost_hi_freq := v
              touchboost_lo_freq := min m.store.touchboost_lo_freq v } }))
      ∧ (v ≠ m.store.touchboost_lo_freq →
        touchboost_lo_freq_store c table m (some v) count
          = (.ok count, { m with store := { m.store with
              touchboost_lo_freq := v
              touchboost_hi_freq := max m.store.touchboost_hi_freq v } })) := by
  have hs := (scan_table_iff _ _ _).2 h_tab
  constructor
  · intro h_new
    simp only [touchboost_hi_freq_store, if_neg h_new, hs, if_true]
    split_ifs <;> simp <;> omega
  · intro h_new
    simp only [touchboost_lo_freq_store, if_neg h_new, hs, if_true]
    split_ifs <;> simp <;> omega

theorem touchboost_store_effects_witness :
    BeforeEnd sampleConsts.CPUFREQ_TABLE_END sampleTable 300
      ∧ 300 ≠ (init sampleConsts).store.touchboost_hi_freq
      ∧ (touchboost_hi_freq_store sampleConsts sampleTable (init sampleConsts)
          (some 300) 4).2.store.touchboost_hi_freq = 300
      ∧ (touchboost_hi_freq_store sampleConsts sampleTable (init sampleConsts)
          (some 300) 4).2.store.touchboost_lo_freq = 300 :=
  ⟨⟨0, rfl, by decide⟩, by decide,
    by rw [(touchboost_store_effects sampleConsts sampleTable (init sampleConsts) 300 4
      ⟨0, rfl, by decide⟩).1 (by decide)],
    by rw [(touchboost_store_effects sampleConsts sampleTable (init sampleConsts) 300 4
      ⟨0, rfl, by decide⟩).1 (by decide)]; decide⟩

/-- C17: for every state, screen-off states included, a `hardlimit` write of a
value `v` that differs from the current screen-on ceiling and is a table entry
before the terminator returns `count` and sets both `hardlimit_max_screen_on`
and `current_limit_max` to `v`. -/
theorem hardlimit_store_sets_active_ceiling (c : Consts) (table : List Nat) (m : Machine)
    (v count : Nat) (h_new : v ≠ m.store.hardlimit_max_screen_on)
    (h_tab : BeforeEnd c.CPUFREQ_TABLE_END table v) :
    (hardlimit_max_screen_on_store c table m (some v) count).1 = .ok count
      ∧ (hardlimit_max_screen_on_store c table m (some v) count).2.store.hardlimit_max_screen_on
          = v
      ∧ (hardlimit_max_screen_on_store c table m (some v) count).2.store.current_limit_max
          = v := by
  have hs := (scan_table_iff _ _ _).2 h_tab
  simp only [hardlimit_max_screen_on_store, if_neg h_new, hs, if_true, reapply_hard_limits]
  refine ⟨trivial, ?_, ?_⟩ <;> split_ifs <;> rfl

theorem hardlimit_store_sets_active_ceiling_witness :
    (cpufreq_hardlimit_suspend sampleConsts (init sampleConsts)).store.current_limit_max
        = (cpufreq_hardlimit_suspend sampleConsts
            (init sampleConsts)).store.hardlimit_max_screen_off
      ∧ 1200 ≠ (cpufreq_hardlimit_suspend sampleConsts
          (init sampleConsts)).store.hardlimit_max_screen_on
      ∧ (hardlimit_max_screen_on_store sampleConsts sampleTable
          (cpufreq_hardlimit_suspend sampleConsts (init sampleConsts))
          (some 1200) 5).2.store.current_limit_max = 1200 :=
  ⟨by decide, by decide,
    (hardlimit_store_sets_active_ceiling sampleConsts sampleTable
      (cpufreq_hardlimit_suspend sampleConsts (init sampleConsts)) 1200 5 (by decide)
      ⟨2, rfl, by decide⟩).2.2⟩

/-- C18: for every state and every accepted `wakeup_kick_freq` write of a new
value `v` (different from the current one, between the two ceilings, a table
entry before the terminator): the write returns `count`, `wakeup_kick_freq`
becomes `v` and `current_limit_max` is unchanged; when `wakeup_kick_active` is
active, `current_limit_min` becomes `v` and the pair is forwarded to the
propagator; when it is not, `current_limit_min` is unchanged and nothing is
forwarded. -/
theorem wakeup_kick_freq_store_effects (c : Consts) (table : List Nat) (m : Machine)
    (v count : Nat) (h_new : v ≠ m.store.wakeup_kick_freq)
    (h_lo : m.store.hardlimit_max_screen_off ≤ v) (h_hi : v ≤ m.store.hardlimit_max_screen_on)
    (h_tab : BeforeEnd c.CPUFREQ_TABLE_END table v) :
    (wakeup_kick_freq_store c table m (some v) count).1 = .ok count
      ∧ (wakeup_kick_freq_store c table m (some v) count).2.store.wakeup_kick_freq = v
      ∧ (wakeup_kick_freq_store c table m (some v) count).2.store.current_limit_max
          = m.store.current_limit_max
      ∧ (m.store.wakeup_kick_active = c.CPUFREQ_HARDLIMIT_WAKEUP_KICK_ACTIVE →
          (wakeup_kick_freq_store c table m (some v) count).2.store.current_limit_min = v
            ∧ (wakeup_kick_freq_store c table m (some v) count).2.scaling_calls
                = (v, m.store.current_limit_max) :: m.scaling_calls)
      ∧ (m.store.wakeup_kick_active ≠ c.CPUFREQ_HARDLIMIT_WAKEUP_KICK_ACTIVE →
          (wakeup_kick_freq_store c table m (some v) count).2.store.current_limit_min
              = m.store.current_limit_min
            ∧ (wakeup_kick_freq_store c table m (some v) count).2.scaling_calls
                = m.scaling_calls) := by
  have hs := (scan_table_iff _ _ _).2 h_tab
  have hr : ¬ (v > m.store.hardlimit_max_screen_on ∨ v < m.store.hardlimit_max_screen_off) := by
    omega
  simp only [wakeup_kick_freq_store, if_neg h_new, if_neg hr, hs, if_true, reapply_hard_limits]
  by_cases ha : m.store.wakeup_kick_active = c.CPUFREQ_HARDLIMIT_WAKEUP_KICK_ACTIVE
  · simp [ha]
  · simp [ha]

theorem wakeup_kick_freq_store_effects_witness :
    1300 ≠ kickingMachine.store.wakeup_kick_freq
      ∧ kickingMachine.store.wakeup_kick_active
          = sampleConsts.CPUFREQ_HARDLIMIT_WAKEUP_KICK_ACTIVE
      ∧ (wakeup_kick_freq_store sampleConsts sampleTable kickingMachine
          (some 1300) 5).2.store.wakeup_kick_freq = 1300
      ∧ (wakeup_kick_freq_store sampleConsts sampleTable kickingMachine
          (some 1300) 5).2.store.current_limit_min = 1300 :=
  ⟨by decide, by decide,
    (wakeup_kick_freq_store_effects sampleConsts sampleTable kickingMachine 1300 5
      (by decide) (by decide) (by decide) ⟨3, rfl, by decide⟩).2.1,
    ((wakeup_kick_freq_store_effects sampleConsts sampleTable kickingMachine 1300 5
      (by decide) (by decide) (by decide) ⟨3, rfl, by decide⟩).2.2.2.1 (by decide)).1⟩

/-- C19: for every state, screen-off states included, a `hardlimit_screen_off`
write of a value `v` that differs from the current screen-off ceiling and is a
table entry before the terminator returns `count` and changes, in the store,
only `hardlimit_max_screen_off` (to `v`): `current_limit_max` and
`current_limit_min` keep their values (so in a screen-off state the active
ceiling is not `v`), and the next display-off notification makes `v` the
active ceiling. -/
theorem hardlimit_screen_off_store_effects (c : Consts) (table : List Nat) (m : Machine)
    (v count : Nat) (h_new : v ≠ m.store.hardlimit_max_screen_off)
    (h_tab : BeforeEnd c.CPUFREQ_TABLE_END table v) :
    (hardlimit_max_screen_off_store c table m (some v) count).1 = .ok count
      ∧ (hardlimit_max_screen_off_store c table m (some v) count).2.store
          = { m.store with hardlimit_max_screen_off := v }
      ∧ (hardlimit_max_screen_off_store c table m (some v) count).2.store.current_limit_max
          = m.store.current_limit_max
      ∧ (hardlimit_max_screen_off_store c table m (some v) count).2.store.current_limit_min
          = m.store.current_limit_min
      ∧ (m.store.current_limit_max = m.store.hardlimit_max_screen_off →
          (hardlimit_max_screen_off_store c table m (some v) count).2.store.current_limit_max
            ≠ v)
      ∧ (cpufreq_hardlimit_suspend c
          (hardlimit_max_screen_off_store c table m (some v) count).2).store.current_limit_max
          = v := by
  have hs := (scan_table_iff _ _ _).2 h_tab
  simp only [hardlimit_max_screen_off_store, if_neg h_new, hs, if_true, reapply_hard_limits,
    cpufreq_hardlimit_suspend]
  refine ⟨trivial, trivial, trivial, trivial, fun h => ?_, trivial⟩
  rw [h]; exact fun e => h_new e.symm

theorem hardlimit_screen_off_store_effects_witness :
    300 ≠ (cpufreq_hardlimit_suspend sampleConsts
        (init sampleConsts)).store.hardlimit_max_screen_off
      ∧ (hardlimit_max_screen_off_store sampleConsts sampleTable
          (cpufreq_hardlimit_suspend sampleConsts (init sampleConsts))
          (some 300) 4).2.store.hardlimit_max_screen_off = 300
      ∧ (hardlimit_max_screen_off_store sampleConsts sampleTable
          (cpufreq_hardlimit_suspend sampleConsts (init sampleConsts))
          (some 300) 4).2.store.current_limit_max = 800 :=
  ⟨by decide,
    by rw [(hardlimit_screen_off_store_effects sampleConsts sampleTable
      (cpufreq_hardlimit_suspend sampleConsts (init sampleConsts)) 300 4 (by decide)
      ⟨0, rfl, by decide⟩).2.1],
    by rw [(hardlimit_screen_off_store_effects sampleConsts sampleTable
      (cpufreq_hardlimit_suspend sampleConsts (init sampleConsts)) 300 4 (by decide)
      ⟨0, rfl, by decide⟩).2.2.1]; decide⟩

/-- C20 (counterexample): on the sample machine the kick has run out (display
on, the delayed work has fired); a further display-on notification raises
`current_limit_min` from 300 to 1200 and sets `wakeup_kick_active` again. -/
theorem resume_in_screen_on_state_changes_store :
    (fire_stop_wakeup_kick_work sampleConsts kickingMachine).store.current_limit_min = 300
      ∧ (fire_stop_wakeup_kick_work sampleConsts kickingMachine).store.wakeup_kick_active = 0
      ∧ (cpufreq_hardlimit_resume sampleConsts
          (fire_stop_wakeup_kick_work sampleConsts kickingMachine)).store.current_limit_min
          = 1200
      ∧ (cpufreq_hardlimit_resume sampleConsts
          (fire_stop_wakeup_kick_work sampleConsts kickingMachine)).store.wakeup_kick_active = 1
      ∧ (cpufreq_hardlimit_resume sampleConsts
          (fire_stop_wakeup_kick_work sampleConsts kickingMachine)).store
          ≠ (fire_stop_wakeup_kick_work sampleConsts kickingMachine).store := by
  decide

/-- C20 (amended): the display-on handler is idempotent on the store: applied
twice it gives the same store as applied once, so a display-on notification
that directly follows another one changes no field; in general it leaves the
store unchanged exactly when the store already holds the three values it
assigns (stock minimum, screen-on ceiling and inactive when the kick is
disabled; kick frequency, screen-on ceiling and active when it is enabled). -/
theorem resume_idempotent_on_store (c : Consts) (m : Machine) :
    (cpufreq_hardlimit_resume c (cpufreq_hardlimit_resume c m)).store
        = (cpufreq_hardlimit_resume c m).store
      ∧ ((cpufreq_hardlimit_resume c m).store = m.store ↔
          (m.store.wakeup_kick_delay = c.CPUFREQ_HARDLIMIT_WAKEUP_KICK_DISABLED
              ∧ m.store.current_limit_min = c.CPUFREQ_HARDLIMIT_MIN_STOCK
              ∧ m.store.current_limit_max = m.store.hardlimit_max_screen_on
              ∧ m.store.wakeup_kick_active = c.CPUFREQ_HARDLIMIT_WAKEUP_KICK_INACTIVE)
            ∨ (m.store.wakeup_kick_delay ≠ c.CPUFREQ_HARDLIMIT_WAKEUP_KICK_DISABLED
              ∧ m.store.current_limit_min = m.store.wakeup_kick_freq
              ∧ m.store.current_limit_max = m.store.hardlimit_max_screen_on
              ∧ m.store.wakeup_kick_active = c.CPUFREQ_HARDLIMIT_WAKEUP_KICK_ACTIVE)) := by
  obtain ⟨⟨son, soff, kick, delay, active, lo, hi, cmax, cmin⟩, calls, usecs, pending⟩ := m
  by_cases hd : delay = c.CPUFREQ_HARDLIMIT_WAKEUP_KICK_DISABLED
  · simp only [cpufreq_hardlimit_resume, hd, if_true, reapply_hard_limits]
    simp
    constructor <;> (rintro ⟨h1, h2, h3⟩; exact ⟨h3.symm, h2.symm, h1.symm⟩)
  · simp only [cpufreq_hardlimit_resume, hd, if_false, reapply_hard_limits,
      schedule_delayed_work, kernel_min_eq, kernel_max_eq]
    simp [hd]
    constructor <;> (rintro ⟨h1, h2, h3⟩; exact ⟨h3.symm, h2.symm, h1.symm⟩)

/-! ## Round trip, propagation and the kick bound -/

theorem accepted_write_is_stored (c : Consts) (table : List Nat) (m : Machine)
    (field : Field) (v count : Nat)
    (h : (field.store c table m (some v) count).1 = .ok count) :
    field.show (field.store c table m (some v) count).2.store = v := by
  cases field <;> simp only [Field.store, Field.show, hardlimit_max_screen_on_store,
    hardlimit_max_screen_off_store, wakeup_kick_freq_store, wakeup_kick_delay_store,
    touchboost_lo_freq_store, touchboost_hi_freq_store, reapply_hard_limits] at h ⊢ <;>
    split_ifs at h ⊢ <;> first | rfl | (symm; assumption)

theorem show_handler_eq (m : Machine) (field : Field) :
    field.show_handler m = sprintf_d (field.show m.store) := by
  cases field <;> rfl

/-- C21 (counterexample): over a table holding an entry marked invalid
(4294967295) before the terminator, the write of 4294967295 to `hardlimit` is
accepted and the field holds 4294967295, but the show handler, which prints
the unsigned field with `%d`, reports -1. -/
theorem show_reports_negative_after_accepted_write :
    (Field.hardlimit.store sampleConsts invalidEntryTable (init sampleConsts)
        (some 4294967295) 11).1 = .ok 11
      ∧ (Field.hardlimit.store sampleConsts invalidEntryTable (init sampleConsts)
          (some 4294967295) 11).2.store.hardlimit_max_screen_on = 4294967295
      ∧ Field.show_handler (Field.hardlimit.store sampleConsts invalidEntryTable
          (init sampleConsts) (some 4294967295) 11).2 .hardlimit = -1
      ∧ Field.show_handler (Field.hardlimit.store sampleConsts invalidEntryTable
          (init sampleConsts) (some 4294967295) 11).2 .hardlimit ≠ 4294967295 := by
  refine ⟨rfl, rfl, ?_, ?_⟩ <;> decide

/-- C21 (amended): for every state, every writable field and every write of a
value `v` that the store handler accepts (it returns `count`), the written
field holds exactly `v` afterwards, also when the write adjusted
`wakeup_kick_freq`, `touchboost_lo_freq` or `touchboost_hi_freq`; the
corresponding show handler, which prints the unsigned field with `%d`, reports
`v` when `v < 2 ^ 31` and `v - 2 ^ 32` when `2 ^ 31 ≤ v < 2 ^ 32`. -/
theorem accepted_write_is_shown (c : Consts) (table : List Nat) (m : Machine)
    (field : Field) (v count : Nat)
    (h : (field.store c table m (some v) count).1 = .ok count) :
    field.show (field.store c table m (some v) count).2.store = v
      ∧ (v < 2 ^ 31 →
          field.show_handler (field.store c table m (some v) count).2 = (v : Int))
      ∧ (2 ^ 31 ≤ v → v < 2 ^ 32 →
          field.show_handler (field.store c table m (some v) count).2
            = (v : Int) - 2 ^ 32) := by
  have hs := accepted_write_is_stored c table m field v count h
  rw [show_handler_eq, hs]
  refine ⟨rfl, fun hv => ?_, fun h1 h2 => ?_⟩
  · have hm : v % 2 ^ 32 = v := Nat.mod_eq_of_lt (by omega)
    simp only [sprintf_d, hm, if_pos hv]
  · have hm : v % 2 ^ 32 = v := Nat.mod_eq_of_lt h2
    have hn : ¬ v < 2 ^ 31 := by omega
    simp only [sprintf_d, hm, if_neg hn]

theorem accepted_write_is_shown_witness :
    (Field.touchboost_hi_freq.store sampleConsts sampleTable (init sampleConsts)
        (some 300) 4).1 = .ok 4
      ∧ (Field.touchboost_hi_freq.store sampleConsts sampleTable (init sampleConsts)
          (some 300) 4).2.store.touchboost_lo_freq = 300
      ∧ Field.show (Field.touchboost_hi_freq.store sampleConsts sampleTable
          (init sampleConsts) (some 300) 4).2.store .touchboost_hi_freq = 300
      ∧ Field.show_handler (Field.touchboost_hi_freq.store sampleConsts sampleTable
          (init sampleConsts) (some 300) 4).2 .touchboost_hi_freq = 300 :=
  ⟨rfl, by decide,
    (accepted_write_is_shown sampleConsts sampleTable (init sampleConsts) .touchboost_hi_freq
      300 4 rfl).1,
    (accepted_write_is_shown sampleConsts sampleTable (init sampleConsts) .touchboost_hi_freq
      300 4 rfl).2.1 (by decide)⟩

theorem changed_pair_is_forwarded (c : Consts) (table : List Nat) (m : Machine) (op : Op)
    (h : (step c table m op).store.current_limit_min ≠ m.store.current_limit_min
      ∨ (step c table m op).store.current_limit_max ≠ m.store.current_limit_max) :
    (step c table m op).scaling_calls
      = ((step c table m op).store.current_limit_min,
          (step c table m op).store.current_limit_max) :: m.scaling_calls := by
  cases op with
  | write field parsed count =>
    cases parsed with
    | none => cases field <;> exact absurd h (by simp [step, Field.store,
        hardlimit_max_screen_on_store, hardlimit_max_screen_off_store, wakeup_kick_freq_store,
        wakeup_kick_delay_store, touchboost_lo_freq_store, touchboost_hi_freq_store])
    | some v =>
      cases field <;> simp only [step, Field.store, hardlimit_max_screen_on_store,
        hardlimit_max_screen_off_store, wakeup_kick_freq_store, wakeup_kick_delay_store,
        touchboost_lo_freq_store, touchboost_hi_freq_store, reapply_hard_limits] at h ⊢ <;>
        split_ifs at h ⊢ <;> first | rfl | (exact absurd h (by simp))
  | display_off => rfl
  | display_on =>
    simp only [step, cpufreq_hardlimit_resume, reapply_hard_limits, schedule_delayed_work]
    split_ifs <;> rfl
  | timer_fires =>
    simp only [step, fire_stop_wakeup_kick_work, stop_wakeup_kick, reapply_hard_limits] at h ⊢
    split_ifs at h ⊢
    · rfl
    · exact absurd h (by simp)

/-- C22: every trigger that changes `current_limit_min` or `current_limit_max`
appends exactly one call of `update_scaling_limits`, with the new pair, so the
last pair forwarded equals the pair of the store; display-off, display-on and
the callback `stop_wakeup_kick` forward the pair they have set in every state,
and so do a `hardlimit` write of a new table value and a `wakeup_kick_freq`
write that is accepted while the kick is active. -/
theorem limits_forwarded_after_change (c : Consts) (table : List Nat) (m : Machine) :
    (∀ op : Op,
        ((step c table m op).store.current_limit_min ≠ m.store.current_limit_min
          ∨ (step c table m op).store.current_limit_max ≠ m.store.current_limit_max) →
        (step c table m op).scaling_calls
            = ((step c table m op).store.current_limit_min,
                (step c table m op).store.current_limit_max) :: m.scaling_calls
          ∧ (step c table m op).scaling_calls.head?
            = some ((step c table m op).store.current_limit_min,
                (step c table m op).store.current_limit_max))
      ∧ (cpufreq_hardlimit_suspend c m).scaling_calls
          = ((cpufreq_hardlimit_suspend c m).store.current_limit_min,
              (cpufreq_hardlimit_suspend c m).store.current_limit_max) :: m.scaling_calls
      ∧ (cpufreq_hardlimit_resume c m).scaling_calls
          = ((cpufreq_hardlimit_resume c m).store.current_limit_min,
              (cpufreq_hardlimit_resume c m).store.current_limit_max) :: m.scaling_calls
      ∧ (stop_wakeup_kick c m).scaling_calls
          = ((stop_wakeup_kick c m).store.current_limit_min,
              (stop_wakeup_kick c m).store.current_limit_max) :: m.scaling_calls
      ∧ (∀ v count : Nat, v ≠ m.store.hardlimit_max_screen_on →
          BeforeEnd c.CPUFREQ_TABLE_END table v →
          (hardlimit_max_screen_on_store c table m (some v) count).2.scaling_calls
            = ((hardlimit_max_screen_on_store c table m (some v) count).2.store.current_limit_min,
                (hardlimit_max_screen_on_store c table m (some v)
                  count).2.store.current_limit_max) :: m.scaling_calls)
      ∧ (∀ v count : Nat, v ≠ m.store.wakeup_kick_freq →
          (wakeup_kick_freq_store c table m (some v) count).1 = .ok count →
          m.store.wakeup_kick_active = c.CPUFREQ_HARDLIMIT_WAKEUP_KICK_ACTIVE →
          (wakeup_kick_freq_store c table m (some v) count).2.scaling_calls
            = ((wakeup_kick_freq_store c table m (some v) count).2.store.current_limit_min,
                (wakeup_kick_freq_store c table m (some v)
                  count).2.store.current_limit_max) :: m.scaling_calls) := by
  refine ⟨fun op h => ?_, rfl, ?_, rfl, ?_, ?_⟩
  · have hc := changed_pair_is_forwarded c table m op h
    exact ⟨hc, by rw [hc]; rfl⟩
  · simp only [cpufreq_hardlimit_resume, reapply_hard_limits, schedule_delayed_work]
    split_ifs <;> rfl
  · intro v count h_new h_tab
    have hs := (scan_table_iff _ _ _).2 h_tab
    simp only [hardlimit_max_screen_on_store, if_neg h_new, hs, if_true, reapply_hard_limits]
  · intro v count h_new h_ok h_act
    simp only [wakeup_kick_freq_store, if_neg h_new, reapply_hard_limits] at h_ok ⊢
    split_ifs at h_ok ⊢
    rfl

theorem limits_forwarded_after_change_witness :
    ((step sampleConsts sampleTable kickingMachine
          (.write .hardlimit (some 1300) 5)).store.current_limit_min
          ≠ kickingMachine.store.current_limit_min
        ∨ (step sampleConsts sampleTable kickingMachine
          (.write .hardlimit (some 1300) 5)).store.current_limit_max
          ≠ kickingMachine.store.current_limit_max)
      ∧ (step sampleConsts sampleTable kickingMachine
          (.write .hardlimit (some 1300) 5)).scaling_calls.head? = some (1200, 1300) :=
  ⟨by decide,
    ((limits_forwarded_after_change sampleConsts sampleTable kickingMachine).1
      (.write .hardlimit (some 1300) 5) (by decide)).2⟩

theorem kick_le_ceiling_step (c : Consts) (table : List Nat) (m : Machine) (op : Op)
    (h : m.store.wakeup_kick_freq ≤ m.store.hardlimit_max_screen_on) :
    (step c table m op).store.wakeup_kick_freq
      ≤ (step c table m op).store.hardlimit_max_screen_on := by
  cases op with
  | write field parsed count =>
    cases parsed with
    | none => cases field <;> exact h
    | some v =>
      cases field <;> simp only [step, Field.store, hardlimit_max_screen_on_store,
        hardlimit_max_screen_off_store, wakeup_kick_freq_store, wakeup_kick_delay_store,
        touchboost_lo_freq_store, touchboost_hi_freq_store, reapply_hard_limits] <;>
        split_ifs <;> simp <;> omega
  | display_off => exact h
  | display_on =>
    simp only [step, cpufreq_hardlimit_resume, reapply_hard_limits, schedule_delayed_work]
    split_ifs <;> exact h
  | timer_fires =>
    simp only [step, fire_stop_wakeup_kick_work, stop_wakeup_kick, reapply_hard_limits]
    split_ifs <;> exact h

theorem kick_le_ceiling_run (c : Consts) (table : List Nat) (ops : List Op) :
    ∀ m : Machine, m.store.wakeup_kick_freq ≤ m.store.hardlimit_max_screen_on →
      (run c table m ops).store.wakeup_kick_freq
        ≤ (run c table m ops).store.hardlimit_max_screen_on := by
  induction ops with
  | nil => intro m h; exact h
  | cons op rest ih =>
    intro m h
    exact ih (step c table m op) (kick_le_ceiling_step c table m op h)

/-- C23: `wakeup_kick_freq ≤ hardlimit_max_screen_on` is preserved by every
trigger (any sysfs write, accepted or rejected, display-off, display-on, the
delayed work firing, and the callback `stop_wakeup_kick` itself); hence, when
the stock minimum is at most the stock screen-on ceiling, it holds in every
state reachable from the stock defaults, and a display-on notification that
finds the kick enabled in such a state sets a floor `current_limit_min` that
does not exceed the ceiling `current_limit_max` set with it. -/
theorem kick_freq_le_screen_on_ceiling (c : Consts) (table : List Nat) :
    (∀ (m : Machine) (op : Op),
        m.store.wakeup_kick_freq ≤ m.store.hardlimit_max_screen_on →
        (step c table m op).store.wakeup_kick_freq
            ≤ (step c table m op).store.hardlimit_max_screen_on
          ∧ (stop_wakeup_kick c m).store.wakeup_kick_freq
            ≤ (stop_wakeup_kick c m).store.hardlimit_max_screen_on)
      ∧ (c.CPUFREQ_HARDLIMIT_MIN_STOCK ≤ c.CPUFREQ_HARDLIMIT_MAX_SCREEN_ON_STOCK →
          ∀ ops : List Op,
            (run c table (init c) ops).store.wakeup_kick_freq
                ≤ (run c table (init c) ops).store.hardlimit_max_screen_on
              ∧ ((run c table (init c) ops).store.wakeup_kick_delay
                    ≠ c.CPUFREQ_HARDLIMIT_WAKEUP_KICK_DISABLED →
                  (cpufreq_hardlimit_resume c
                      (run c table (init c) ops)).store.current_limit_min
                    ≤ (cpufreq_hardlimit_resume c
                      (run c table (init c) ops)).store.current_limit_max)) := by
  refine ⟨fun m op h => ⟨kick_le_ceiling_step c table m op h, h⟩, fun h0 ops => ?_⟩
  have hr := kick_le_ceiling_run c table ops (init c) h0
  refine ⟨hr, fun hd => ?_⟩
  simp only [cpufreq_hardlimit_resume, if_neg hd, reapply_hard_limits, schedule_delayed_work,
    kernel_min_eq, kernel_max_eq]
  omega

theorem kick_freq_le_screen_on_ceiling_witness :
    sampleConsts.CPUFREQ_HARDLIMIT_MIN_STOCK ≤ sampleConsts.CPUFREQ_HARDLIMIT_MAX_SCREEN_ON_STOCK
      ∧ (run sampleConsts sampleTable (init sampleConsts)
          [.write .wakeup_kick_freq (some 1300) 5,
            .write .hardlimit (some 1200) 5]).store.wakeup_kick_freq
        ≤ (run sampleConsts sampleTable (init sampleConsts)
          [.write .wakeup_kick_freq (some 1300) 5,
            .write .hardlimit (some 1200) 5]).store.hardlimit_max_screen_on :=
  ⟨by decide,
    ((kick_freq_le_screen_on_ceiling sampleConsts sampleTable).2 (by decide)
      [.write .wakeup_kick_freq (some 1300) 5, .write .hardlimit (some 1200) 5]).1⟩

end Hardlimit
